import Mathlib

/-!
Verification development for the tablo.tv client library.

The definitions below are a shallow embedding of the TypeScript sources:
  * cryptographic helpers used by `TabloAPI.generateAuthHeader`
    (src/tablo_api.ts) and by the registry fingerprint of
    `LiveTranscoder.instance` (src/live_transcoder.ts);
  * the `LiveTranscoder` supervisor state machine (src/live_transcoder.ts)
    as a step function over an explicit state record, with the asynchronous
    suspension points of `start()` split into separate events, following
    the cooperative single-threaded scheduling of the runtime.
-/

namespace TabloTV

set_option maxRecDepth 400000

/-! ### 32-bit word arithmetic over `Nat` -/

def w32 (n : Nat) : Nat := n % 4294967296

def add32 (a b : Nat) : Nat := w32 (a + b)

def rotl32 (x n : Nat) : Nat :=
  w32 ((x <<< n) + (x >>> (32 - n)))

def rotr32 (x n : Nat) : Nat :=
  w32 ((x >>> n) + (x <<< (32 - n)))

def not32 (x : Nat) : Nat := 4294967295 - w32 x

/-! ### UTF-8 encoding (Node strings are encoded as UTF-8 before hashing) -/

def utf8EncodeCharBytes (c : Char) : List Nat :=
  let n := c.toNat
  if n < 128 then [n]
  else if n < 2048 then [192 + n / 64, 128 + n % 64]
  else if n < 65536 then [224 + n / 4096, 128 + (n / 64) % 64, 128 + n % 64]
  else [240 + n / 262144, 128 + (n / 4096) % 64, 128 + (n / 64) % 64, 128 + n % 64]

def utf8Bytes (s : String) : List Nat :=
  s.data.foldr (fun c acc => utf8EncodeCharBytes c ++ acc) []

/-! ### Hex rendering -/

def hexDigitChar (n : Nat) : Char :=
  if n < 10 then Char.ofNat (48 + n) else Char.ofNat (87 + n)

def byteToHex (b : Nat) : List Char :=
  [hexDigitChar (b / 16 % 16), hexDigitChar (b % 16)]

def bytesToHex (bs : List Nat) : String :=
  ⟨bs.foldr (fun b acc => byteToHex b ++ acc) []⟩

/-! ### MD5 (crypto collaborator of `generateAuthHeader`) -/

def md5K : List Nat :=
  [3614090360, 3905402710, 606105819, 3250441966,
   4118548399, 1200080426, 2821735955, 4249261313,
   1770035416, 2336552879, 4294925233, 2304563134,
   1804603682, 4254626195, 2792965006, 1236535329,
   4129170786, 3225465664, 643717713, 3921069994,
   3593408605, 38016083, 3634488961, 3889429448,
   568446438, 3275163606, 4107603335, 1163531501,
   2850285829, 4243563512, 1735328473, 2368359562,
   4294588738, 2272392833, 1839030562, 4259657740,
   2763975236, 1272893353, 4139469664, 3200236656,
   681279174, 3936430074, 3572445317, 76029189,
   3654602809, 3873151461, 530742520, 3299628645,
   4096336452, 1126891415, 2878612391, 4237533241,
   1700485571, 2399980690, 4293915773, 2240044497,
   1873313359, 4264355552, 2734768916, 1309151649,
   4149444226, 3174756917, 718787259, 3951481745]

def md5S : List Nat :=
  [7, 12, 17, 22, 7, 12, 17, 22, 7, 12, 17, 22, 7, 12, 17, 22,
   5, 9, 14, 20, 5, 9, 14, 20, 5, 9, 14, 20, 5, 9, 14, 20,
   4, 11, 16, 23, 4, 11, 16, 23, 4, 11, 16, 23, 4, 11, 16, 23,
   6, 10, 15, 21, 6, 10, 15, 21, 6, 10, 15, 21, 6, 10, 15, 21]

/-- little-endian split of a byte list into 32-bit words (16 per block) -/
def leWords : List Nat → List Nat
  | b0 :: b1 :: b2 :: b3 :: rest =>
      (b0 + b1 * 256 + b2 * 65536 + b3 * 16777216) :: leWords rest
  | _ => []

def md5Pad (msg : List Nat) : List Nat :=
  let len := msg.length
  let bitLen := (len * 8) % 18446744073709551616
  let padLen := (55 + 64 - len % 64) % 64 + 1
  msg ++ (128 :: List.replicate (padLen - 1) 0) ++
    [bitLen % 256, bitLen / 256 % 256, bitLen / 65536 % 256,
     bitLen / 16777216 % 256, bitLen / 4294967296 % 256,
     bitLen / 1099511627776 % 256, bitLen / 281474976710656 % 256,
     bitLen / 72057594037927936 % 256]

def md5Round (m : List Nat) (st : Nat × Nat × Nat × Nat) (i : Nat) :
    Nat × Nat × Nat × Nat :=
  let (a, b, c, d) := st
  let (f, g) :=
    if i < 16 then ((b &&& c) ||| (not32 b &&& d), i)
    else if i < 32 then ((d &&& b) ||| (not32 d &&& c), (5 * i + 1) % 16)
    else if i < 48 then (b ^^^ c ^^^ d, (3 * i + 5) % 16)
    else (c ^^^ (b ||| not32 d), (7 * i) % 16)
  let ki := md5K.getD i 0
  let si := md5S.getD i 0
  let mg := m.getD g 0
  let a2 := add32 b (rotl32 (add32 (add32 a f) (add32 ki mg)) si)
  (d, a2, b, c)

def md5Block (st : Nat × Nat × Nat × Nat) (m : List Nat) :
    Nat × Nat × Nat × Nat :=
  let (a0, b0, c0, d0) := st
  let (a, b, c, d) := (List.range 64).foldl (md5Round m) st
  (add32 a0 a, add32 b0 b, add32 c0 c, add32 d0 d)

def chunk64Fuel : Nat → List Nat → List (List Nat)
  | 0, _ => []
  | _, [] => []
  | fuel + 1, l => l.take 64 :: chunk64Fuel fuel (l.drop 64)

def chunk64 (l : List Nat) : List (List Nat) := chunk64Fuel l.length l

def leBytes4 (x : Nat) : List Nat :=
  [x % 256, x / 256 % 256, x / 65536 % 256, x / 16777216 % 256]

def md5Bytes (msg : List Nat) : List Nat :=
  let blocks := (chunk64 (md5Pad msg)).map leWords
  let (a, b, c, d) :=
    blocks.foldl md5Block (1732584193, 4023233417, 2562383102, 271733878)
  leBytes4 a ++ leBytes4 b ++ leBytes4 c ++ leBytes4 d

def md5Hex (msg : List Nat) : String := bytesToHex (md5Bytes msg)

/-! ### SHA-256 (crypto collaborator of `LiveTranscoder.instance`) -/

def sha256K : List Nat :=
  [1116352408, 1899447441, 3049323471, 3921009573,
   961987163, 1508970993, 2453635748, 2870763221,
   3624381080, 310598401, 607225278, 1426881987,
   1925078388, 2162078206, 2614888103, 3248222580,
   3835390401, 4022224774, 264347078, 604807628,
   770255983, 1249150122, 1555081692, 1996064986,
   2554220882, 2821834349, 2952996808, 3210313671,
   3336571891, 3584528711, 113926993, 338241895,
   666307205, 773529912, 1294757372, 1396182291,
   1695183700, 1986661051, 2177026350, 2456956037,
   2730485921, 2820302411, 3259730800, 3345764771,
   3516065817, 3600352804, 4094571909, 275423344,
   430227734, 506948616, 659060556, 883997877,
   958139571, 1322822218, 1537002063, 1747873779,
   1955562222, 2024104815, 2227730452, 2361852424,
   2428436474, 2756734187, 3204031479, 3329325298]

/-- big-endian split of a byte list into 32-bit words -/
def beWords : List Nat → List Nat
  | b0 :: b1 :: b2 :: b3 :: rest =>
      (b0 * 16777216 + b1 * 65536 + b2 * 256 + b3) :: beWords rest
  | _ => []

def sha256Pad (msg : List Nat) : List Nat :=
  let len := msg.length
  let bitLen := (len * 8) % 18446744073709551616
  let padLen := (55 + 64 - len % 64) % 64 + 1
  msg ++ (128 :: List.replicate (padLen - 1) 0) ++
    [bitLen / 72057594037927936 % 256, bitLen / 281474976710656 % 256,
     bitLen / 1099511627776 % 256, bitLen / 4294967296 % 256,
     bitLen / 16777216 % 256, bitLen / 65536 % 256,
     bitLen / 256 % 256, bitLen % 256]

def sha256Schedule (w : List Nat) (i : Nat) : List Nat :=
  if i < 16 then w
  else
    let w15 := w.getD (i - 15) 0
    let w2 := w.getD (i - 2) 0
    let s0 := rotr32 w15 7 ^^^ rotr32 w15 18 ^^^ (w15 >>> 3)
    let s1 := rotr32 w2 17 ^^^ rotr32 w2 19 ^^^ (w2 >>> 10)
    w ++ [add32 (add32 (w.getD (i - 16) 0) s0) (add32 (w.getD (i - 7) 0) s1)]

def sha256ScheduleAll (m : List Nat) : List Nat :=
  (List.range 64).foldl sha256Schedule m

def sha256Round (w : List Nat) (st : List Nat) (i : Nat) : List Nat :=
  match st with
  | [a, b, c, d, e, f, g, h] =>
    let s1 := rotr32 e 6 ^^^ rotr32 e 11 ^^^ rotr32 e 25
    let ch := (e &&& f) ^^^ (not32 e &&& g)
    let t1 := add32 (add32 h s1) (add32 (add32 ch (sha256K.getD i 0)) (w.getD i 0))
    let s0 := rotr32 a 2 ^^^ rotr32 a 13 ^^^ rotr32 a 22
    let mj := (a &&& b) ^^^ (a &&& c) ^^^ (b &&& c)
    let t2 := add32 s0 mj
    [add32 t1 t2, a, b, c, add32 d t1, e, f, g]
  | st => st

def sha256Block (st : List Nat) (m : List Nat) : List Nat :=
  let w := sha256ScheduleAll m
  let fin := (List.range 64).foldl (sha256Round w) st
  (st.zip fin).map fun p => add32 p.1 p.2

def beBytes4 (x : Nat) : List Nat :=
  [x / 16777216 % 256, x / 65536 % 256, x / 256 % 256, x % 256]

def sha256Bytes (msg : List Nat) : List Nat :=
  let blocks := (chunk64 (sha256Pad msg)).map beWords
  let fin := blocks.foldl sha256Block
    [1779033703, 3144134277, 1013904242, 2773480762,
     1359893119, 2600822924, 528734635, 1541459225]
  fin.foldr (fun x acc => beBytes4 x ++ acc) []

def sha256Hex (msg : List Nat) : String := bytesToHex (sha256Bytes msg)

/-! ### HMAC-MD5 (crypto collaborator of `generateAuthHeader`) -/

def hmacMd5Bytes (key msg : List Nat) : List Nat :=
  let key := if 64 < key.length then md5Bytes key else key
  let key := key ++ List.replicate (64 - key.length) 0
  let ipad := key.map (fun b => b ^^^ 54)
  let opad := key.map (fun b => b ^^^ 92)
  md5Bytes (opad ++ md5Bytes (ipad ++ msg))

def hmacMd5Hex (key msg : List Nat) : String := bytesToHex (hmacMd5Bytes key msg)

/-! ### Auth header generation — `TabloAPI.generateAuthHeader` (src/tablo_api.ts) -/

structure AuthHeaders where
  authorization : String
  date : String
deriving DecidableEq

def stringToUpper (s : String) : String := ⟨s.data.map Char.toUpper⟩

/-- The `message` local of `generateAuthHeader`: body hash slot is
`''` when the body is empty (JS falsiness of the empty string). -/
def authMessage (method path body date : String) : String :=
  let body_hash := if body = "" then "" else md5Hex (utf8Bytes body)
  method ++ "\n" ++ path ++ "\n" ++ body_hash ++ "\n" ++ date

def generateAuthHeader (method path body date access_key secret_key : String) :
    AuthHeaders :=
  let message := authMessage method path body date
  let hmac_signature :=
    stringToUpper (hmacMd5Hex (utf8Bytes secret_key) (utf8Bytes message))
  { authorization := "tablo:" ++ access_key ++ ":" ++ hmac_signature
    date := date }

/-- Modelled from the spec: the signing formula as the spec states it, with
the body hash slot always `MD5(body)` (also for an empty body). Used only
to compare against `generateAuthHeader`. -/
def generateAuthHeaderSpec (method path body date access_key secret_key : String) :
    AuthHeaders :=
  let message :=
    method ++ "\n" ++ path ++ "\n" ++ md5Hex (utf8Bytes body) ++ "\n" ++ date
  let hmac_signature :=
    stringToUpper (hmacMd5Hex (utf8Bytes secret_key) (utf8Bytes message))
  { authorization := "tablo:" ++ access_key ++ ":" ++ hmac_signature
    date := date }

/-! ### Registry fingerprint — `LiveTranscoder.instance` (src/live_transcoder.ts) -/

def jsonEscapeChar (c : Char) : List Char :=
  if c = '"' then ['\\', '"']
  else if c = '\\' then ['\\', '\\']
  else if c.toNat = 8 then ['\\', 'b']
  else if c.toNat = 9 then ['\\', 't']
  else if c.toNat = 10 then ['\\', 'n']
  else if c.toNat = 12 then ['\\', 'f']
  else if c.toNat = 13 then ['\\', 'r']
  else if c.toNat < 32 then
    ['\\', 'u', '0', '0', hexDigitChar (c.toNat / 16), hexDigitChar (c.toNat % 16)]
  else [c]

def jsonStringLit (s : String) : String :=
  "\"" ++ ⟨s.data.foldr (fun c acc => jsonEscapeChar c ++ acc) []⟩ ++ "\""

/-- `JSON.stringify(\x7b server_id: info.server_id, channel_id \x7d)` -/
def fingerprintPreimage (server_id channel_id : String) : String :=
  "\x7b\"server_id\":" ++ jsonStringLit server_id ++
    ",\"channel_id\":" ++ jsonStringLit channel_id ++ "\x7d"

def fingerprint (server_id channel_id : String) : String :=
  sha256Hex (utf8Bytes (fingerprintPreimage server_id channel_id))

/-! ### LiveTranscoder state (src/live_transcoder.ts)

The supervisor is embedded as an explicit state record.  Filesystem facts
are tracked by `dirExists` (the per-supervisor output directory) and the
responses of the asynchronous collaborators (device session client, the
readiness poll's `existsSync` check) arrive as event parameters.  The
number of live external processes is tracked by `procCount`; the
`process` flag mirrors whether the `this.process` handle is set. -/

structure PlayerSession where
  token : String
  keepalive : Int
  playlist_url : String
deriving DecidableEq

structure DeviceInfo where
  server_id : String
deriving DecidableEq

/-- `resolve(base, './rel')` for a well-formed absolute base -/
def resolvePath (base rel : String) : String := base ++ "/" ++ rel

def mkFullPath (output_path id filename : String) : String :=
  resolvePath (resolvePath output_path id) filename

structure Transcoder where
  id : String
  channel_id : String
  output_path : String
  filename : String
  auto_restart : Bool
  use_count : Int
  active : Bool
  process : Bool
  procCount : Nat
  timer : Option Int
  session : Option PlayerSession
  pendingStarts : Nat
  polling : Nat
  dirExists : Bool
  full_path : String
deriving DecidableEq

/-- The protected constructor: wipes and recreates the output directory,
zeroes the counters, computes `full_path`. -/
def mkTranscoder (id channel_id output_path filename : String)
    (auto_restart : Bool) : Transcoder :=
  { id := id, channel_id := channel_id, output_path := output_path
    filename := filename, auto_restart := auto_restart
    use_count := 0, active := false, process := false, procCount := 0
    timer := none, session := none, pendingStarts := 0, polling := 0
    dirExists := true
    full_path := mkFullPath output_path id filename }

/-- `relative_path` getter: template concatenation followed by the JS
`String.replace` with a string pattern, which replaces only the first
occurrence. -/
def isPrefixL : List Char → List Char → Bool
  | [], _ => true
  | _ :: _, [] => false
  | p :: ps, c :: cs => p == c && isPrefixL ps cs

def replaceFirstL (pat rep : List Char) : List Char → List Char
  | [] => if isPrefixL pat [] then rep else []
  | c :: cs =>
    if isPrefixL pat (c :: cs) then rep ++ (c :: cs).drop pat.length
    else c :: replaceFirstL pat rep cs

def replaceFirst (s pat rep : String) : String :=
  ⟨replaceFirstL pat.data rep.data s.data⟩

def relative_path (t : Transcoder) : String :=
  if t.id ≠ "" then
    replaceFirst (t.output_path ++ "/" ++ t.id ++ "/" ++ t.filename) "//" "/"
  else ""

/-! ### Observable outputs and events -/

inductive Output where
  | ready : Output
  | errorOut : Output
  | exitOut : Int → Output
  | stoppedOut : Output
  | sessionRequest : Output
  | sessionDelete : Output
  | spawnOut : List String → Output
  | retStart : Bool → Output
deriving DecidableEq

/-- The fixed ffmpeg invocation of `start_ffmpeg` -/
def ffmpegArgs (playlist_url full_path : String) : List String :=
  ["-re", "-i", playlist_url,
   "-c:v", "libx264", "-preset", "veryfast", "-tune",
   "zerolatency", "-crf", "23", "-g", "48",
   "-keyint_min", "48", "-sc_threshold", "0", "-ac",
   "2", "-c:a", "aac", "-b:a", "128k",
   "-f", "hls", "-hls_time", "4", "-hls_list_size",
   "6", "-hls_flags", "delete_segments+program_date_time+append_list",
   full_path]

/-- `start_ffmpeg`: returns false without spawning when no session is
recorded; otherwise spawns the external tool with the fixed arguments. -/
def start_ffmpeg (t : Transcoder) : Transcoder × List Output × Bool :=
  match t.session with
  | none => (t, [], false)
  | some s =>
    ({ t with process := true, procCount := t.procCount + 1 },
     [.spawnOut (ffmpegArgs s.playlist_url t.full_path)], true)

/-- The internal `abort` handler followed by the internal `stopped`
handler.  The whole body is guarded by `if (this.process)`.  Note the
session field is not cleared (the source only issues `deleteSession`). -/
def abortSeq (t : Transcoder) : Transcoder × List Output :=
  if t.process then
    let outs := if t.session.isSome then [Output.sessionDelete] else []
    ({ t with process := false, procCount := t.procCount - 1,
              timer := none, active := false, dirExists := false },
     outs ++ [.stoppedOut])
  else (t, [])

/-- `start()` up to its first suspension point: the Active fast path
joins immediately; otherwise the remote watch-session request is issued
and the call suspends. -/
def callStart (t : Transcoder) : Transcoder × List Output :=
  if t.active then
    ({ t with use_count := t.use_count + 1 }, [.ready, .retStart true])
  else
    ({ t with pendingStarts := t.pendingStarts + 1 }, [.sessionRequest])

/-- A suspended `start()` resumes with the device response: `this.session`
is assigned the response before the null check; on success the keepalive
timer is created at `(keepalive - 30) * 1000` ms, the use count is
incremented, the process is spawned and a readiness poll loop is
scheduled. -/
def resumeStart (t : Transcoder) (resp : Option PlayerSession) :
    Transcoder × List Output :=
  if t.pendingStarts = 0 then (t, [])
  else
    let t1 := { t with pendingStarts := t.pendingStarts - 1, session := resp }
    match resp with
    | none => (t1, [.errorOut, .retStart false])
    | some s =>
      let t2 := { t1 with timer := some ((s.keepalive - 30) * 1000) }
      let t3 := { t2 with use_count := t2.use_count + 1 }
      let (t4, outs, started) := start_ffmpeg t3
      if started then
        ({ t4 with polling := t4.polling + 1 }, outs ++ [.retStart true])
      else (t4, outs ++ [.retStart false])

/-- One tick of one scheduled readiness poll loop, parameterised by
whether `existsSync(full_path)` observes the playlist. -/
def pollTick (t : Transcoder) (fileExists : Bool) : Transcoder × List Output :=
  if 0 < t.polling then
    if fileExists then
      ({ t with polling := t.polling - 1, active := true }, [.ready])
    else (t, [])
  else (t, [])

/-- `stop()`: unconditional decrement, then the abort sequence when the
supervisor was active and the count reached zero or below. -/
def stop (t : Transcoder) : Transcoder × List Output :=
  let t1 := { t with use_count := t.use_count - 1 }
  if t1.active = true ∧ t1.use_count ≤ 0 then abortSeq t1 else (t1, [])

/-- The `exit` handler of the spawned process: emits the exit code, then
either respawns (auto-restart) or runs the abort sequence. -/
def procExit (t : Transcoder) (code : Int) : Transcoder × List Output :=
  if t.process then
    let t1 := { t with procCount := t.procCount - 1 }
    if t1.auto_restart then
      let (t2, outs, _) := start_ffmpeg t1
      (t2, .exitOut code :: outs)
    else
      let (t2, outs) := abortSeq t1
      (t2, .exitOut code :: outs)
  else (t, [])

inductive Ev where
  | callStart : Ev
  | resumeStart : Option PlayerSession → Ev
  | pollTick : Bool → Ev
  | stop : Ev
  | procExit : Int → Ev

def step (t : Transcoder) : Ev → Transcoder × List Output
  | .callStart => callStart t
  | .resumeStart r => resumeStart t r
  | .pollTick b => pollTick t b
  | .stop => stop t
  | .procExit c => procExit t c

def run (t : Transcoder) : List Ev → Transcoder × List Output
  | [] => (t, [])
  | e :: es =>
    let r1 := step t e
    let r2 := run r1.1 es
    (r2.1, r1.2 ++ r2.2)

/-! ### Output counting -/

def isReadyOut : Output → Bool
  | .ready => true
  | _ => false

def isSessionReqOut : Output → Bool
  | .sessionRequest => true
  | _ => false

def isSpawnOut : Output → Bool
  | .spawnOut _ => true
  | _ => false

def isStoppedOut : Output → Bool
  | .stoppedOut => true
  | _ => false

def countReady (os : List Output) : Nat := os.countP (fun o => isReadyOut o)

def countSessionReq (os : List Output) : Nat :=
  os.countP (fun o => isSessionReqOut o)

def countSpawn (os : List Output) : Nat := os.countP (fun o => isSpawnOut o)

def countStopped (os : List Output) : Nat := os.countP (fun o => isStoppedOut o)

def spawnArgsList : List Output → List (List String)
  | [] => []
  | .spawnOut a :: rest => a :: spawnArgsList rest
  | _ :: rest => spawnArgsList rest

/-! ### Instance registry — `LiveTranscoder.instance` -/

def instanceLookup (reg : List (String × Transcoder)) (key : String) :
    Option Transcoder :=
  match reg with
  | [] => none
  | (k, t) :: rest => if k = key then some t else instanceLookup rest key

/-- `LiveTranscoder.instance`: resolves device info, computes the sha256
fingerprint of the canonicalized pair, returns the registered supervisor
or constructs and registers one. -/
def instanceReg (reg : List (String × Transcoder)) (info : Option DeviceInfo)
    (channel_id output_path filename : String) (auto_restart : Bool) :
    Except String (Transcoder × List (String × Transcoder)) :=
  match info with
  | none => .error "Failed to retrieve device information"
  | some i =>
    let id := fingerprint i.server_id channel_id
    match instanceLookup reg id with
    | some t => .ok (t, reg)
    | none =>
      let t := mkTranscoder id channel_id output_path filename auto_restart
      .ok (t, (id, t) :: reg)

/-! ### Further helpers for the statements -/

/-- outputs of `k` joining `start()` calls on an Active supervisor -/
def joinOutputs : Nat → List Output
  | 0 => []
  | k + 1 => .ready :: .retStart true :: joinOutputs k

def countRetTrue (os : List Output) : Nat :=
  os.countP (fun o => o == Output.retStart true)

def countStopEv (es : List Ev) : Nat :=
  es.countP (fun e => match e with | .stop => true | _ => false)

/-- the template string of the `relative_path` getter before `replace` -/
def pathOf (t : Transcoder) : String :=
  t.output_path ++ "/" ++ t.id ++ "/" ++ t.filename

/-- no occurrence of `pat` starts at a position strictly below `n` -/
def noOccurBelow (pat s : List Char) : Nat → Bool
  | 0 => true
  | n + 1 => noOccurBelow pat s n && !isPrefixL pat (s.drop n)

/-- the first occurrence of `pat` in `s` starts at position `i` -/
def occursAtB (pat s : List Char) (i : Nat) : Bool :=
  isPrefixL pat (s.drop i) && noOccurBelow pat s i

/-- sample session used by concrete witnesses -/
def sessEx : PlayerSession :=
  { token := "tok", keepalive := 60, playlist_url := "http://dev/pl.m3u8" }

/-- sample freshly-constructed supervisor used by concrete witnesses -/
def tIdleEx : Transcoder := mkTranscoder "fp" "C1" "/out" "stream.m3u8" true

/-- sample Active supervisor (one consumer, playlist observed) used by
concrete witnesses -/
def tActiveEx : Transcoder :=
  (run tIdleEx [.callStart, .resumeStart (some sessEx), .pollTick true]).1

/-! ## Supporting lemmas -/

theorem step_use_count_balance (t : Transcoder) (e : Ev) :
    (step t e).1.use_count + (countStopEv [e] : Int) =
      t.use_count + (countRetTrue (step t e).2 : Int) := by
  cases e with
  | callStart =>
    by_cases h : t.active = true <;>
      simp [step, callStart, countStopEv, countRetTrue, h]
  | resumeStart r =>
    by_cases h : t.pendingStarts = 0
    · simp [step, resumeStart, countStopEv, countRetTrue, h]
    · cases r <;>
        simp [step, resumeStart, start_ffmpeg, countStopEv, countRetTrue, h]
  | pollTick b =>
    by_cases h : 0 < t.polling <;> cases b <;>
      simp [step, pollTick, countStopEv, countRetTrue, h]
  | stop =>
    simp only [step, stop, countStopEv, countRetTrue]
    split
    · by_cases hp : t.process = true <;> cases hs : t.session <;>
        simp [abortSeq, hp, hs]
    · simp
  | procExit c =>
    by_cases h : t.process = true
    · by_cases ha : t.auto_restart = true <;>
        cases hs : t.session <;>
          simp [step, procExit, start_ffmpeg, abortSeq, countStopEv,
            countRetTrue, h, ha, hs]
    · simp [step, procExit, countStopEv, countRetTrue, h]

theorem countStopEv_cons (e : Ev) (es : List Ev) :
    countStopEv (e :: es) = countStopEv [e] + countStopEv es := by
  simp [countStopEv, List.countP_cons]
  omega

theorem countRetTrue_append (a b : List Output) :
    countRetTrue (a ++ b) = countRetTrue a + countRetTrue b := by
  simp [countRetTrue, List.countP_append]

theorem run_use_count_balance (t : Transcoder) (es : List Ev) :
    (run t es).1.use_count + (countStopEv es : Int) =
      t.use_count + (countRetTrue (run t es).2 : Int) := by
  induction es generalizing t with
  | nil => simp [run, countStopEv, countRetTrue]
  | cons e es ih =>
    have h1 := step_use_count_balance t e
    have h2 := ih (step t e).1
    rw [countStopEv_cons]
    simp only [run]
    rw [countRetTrue_append]
    push_cast at h1 h2 ⊢
    omega

theorem run_joins (k : Nat) (t : Transcoder) (h : t.active = true) :
    run t (List.replicate k .callStart) =
      ({ t with use_count := t.use_count + (k : Int) }, joinOutputs k) := by
  induction k generalizing t with
  | zero => simp [run, joinOutputs]
  | succ k ih =>
    rw [List.replicate_succ]
    have hstep : step t .callStart =
        ({ t with use_count := t.use_count + 1 },
         [Output.ready, Output.retStart true]) := by
      simp [step, callStart, h]
    simp only [run, hstep]
    rw [ih { t with use_count := t.use_count + 1 } h]
    have heq : t.use_count + 1 + (k : Int) = t.use_count + ((k + 1 : Nat) : Int) := by
      push_cast
      ring
    rw [heq]
    simp [joinOutputs]

theorem countReady_joinOutputs (k : Nat) : countReady (joinOutputs k) = k := by
  induction k with
  | zero => simp [joinOutputs, countReady]
  | succ k ih => simp [joinOutputs, countReady, List.countP_cons, isReadyOut] at ih ⊢; omega

theorem countSessionReq_joinOutputs (k : Nat) :
    countSessionReq (joinOutputs k) = 0 := by
  induction k with
  | zero => simp [joinOutputs, countSessionReq]
  | succ k ih =>
    simp [joinOutputs, countSessionReq, List.countP_cons, isSessionReqOut] at ih ⊢
    exact ih

theorem countSpawn_joinOutputs (k : Nat) : countSpawn (joinOutputs k) = 0 := by
  induction k with
  | zero => simp [joinOutputs, countSpawn]
  | succ k ih =>
    simp [joinOutputs, countSpawn, List.countP_cons, isSpawnOut] at ih ⊢
    exact ih

/-! ## Claim C3 -/

/-- C3 (counterexample): `stop()` on a freshly constructed supervisor with
use_count 0 drives the count to -1, strictly below zero; the claim that it
cannot go below 0 fails on the code. -/
theorem c3_counterexample :
    tIdleEx.use_count = 0 ∧ (stop tIdleEx).1.use_count = -1 ∧
      (stop tIdleEx).1.use_count < 0 := by
  decide

/-- C3 (amended): the use count satisfies the balance equation
final + #stop-events = initial + #successful-start-returns, hence it stays
non-negative exactly on call sequences where stop() calls never outnumber
the start() calls that returned true; an excess stop() (e.g. on a
never-started supervisor) drives it negative. -/
theorem c3_use_count_balance (t : Transcoder) (es : List Ev) :
    (run t es).1.use_count + (countStopEv es : Int) =
      t.use_count + (countRetTrue (run t es).2 : Int) ∧
    (0 ≤ t.use_count → countStopEv es ≤ countRetTrue (run t es).2 →
      0 ≤ (run t es).1.use_count) := by
  refine ⟨run_use_count_balance t es, fun h1 h2 => ?_⟩
  have := run_use_count_balance t es
  omega

/-- C3 witness -/
theorem c3_use_count_balance_witness :
    0 ≤ (run tIdleEx
      [.callStart, .resumeStart (some sessEx), .pollTick true, .stop]).1.use_count := by
  exact (c3_use_count_balance tIdleEx
    [.callStart, .resumeStart (some sessEx), .pollTick true, .stop]).2
    (by decide) (by decide)

/-! ## Claim C4 -/

/-- C4 (counterexample): a session lease of 30 seconds yields a keepalive
timer interval of exactly 0 ms, which is not strictly positive: the code
has no positive-minimum clamp. -/
theorem c4_counterexample :
    (run tIdleEx [.callStart,
      .resumeStart (some { token := "tok", keepalive := 30,
                           playlist_url := "u" })]).1.timer = some 0 ∧
      ¬ (0 : Int) < 0 := by
  decide

/-- C4 (amended): a successful start from Idle creates the keepalive timer
with interval exactly (lease - 30) * 1000 ms, with no clamping; the
interval is strictly positive iff the lease exceeds 30 s, and a lease of
60 s gives exactly 30000 ms. -/
theorem c4_timer_interval (t : Transcoder) (s : PlayerSession)
    (hidle : t.active = false) :
    (run t [.callStart, .resumeStart (some s)]).1.timer =
      some ((s.keepalive - 30) * 1000) ∧
    (s.keepalive = 60 →
      (run t [.callStart, .resumeStart (some s)]).1.timer = some 30000) ∧
    (0 < (s.keepalive - 30) * 1000 ↔ 30 < s.keepalive) := by
  have hrun : (run t [.callStart, .resumeStart (some s)]).1.timer =
      some ((s.keepalive - 30) * 1000) := by
    simp [run, step, callStart, resumeStart, start_ffmpeg, hidle]
  refine ⟨hrun, fun h60 => ?_, by omega⟩
  rw [hrun, h60]
  norm_num

/-- C4 witness -/
theorem c4_timer_interval_witness :
    (run tIdleEx [.callStart, .resumeStart (some sessEx)]).1.timer =
      some 30000 := by
  exact (c4_timer_interval tIdleEx sessEx rfl).2.1 rfl

/-! ## Claim C5 -/

/-- C5 (evaluation at the failing interleaving): two `start()` calls that
both pass the Active check before either resumes from the watch-session
request issue two remote session requests and spawn two external
processes, leaving two live processes for the one fingerprint. -/
theorem c5_concurrent_starts_two_sessions (s1 s2 : PlayerSession)
    (id ch op fn : String) :
    countSessionReq (run (mkTranscoder id ch op fn true)
      [.callStart, .callStart, .resumeStart (some s1),
       .resumeStart (some s2)]).2 = 2 ∧
    countSpawn (run (mkTranscoder id ch op fn true)
      [.callStart, .callStart, .resumeStart (some s1),
       .resumeStart (some s2)]).2 = 2 ∧
    (run (mkTranscoder id ch op fn true)
      [.callStart, .callStart, .resumeStart (some s1),
       .resumeStart (some s2)]).1.procCount = 2 := by
  refine ⟨rfl, rfl, rfl⟩

/-! ## Claim C6 -/

/-- C6: when the watch-session request of a `start()` from Idle yields no
session, the supervisor emits an error, the call returns false, and the
use count, active flag, process handle, process count, timer handle and
output directory are all unchanged. -/
theorem c6_failed_session_stays_idle (t : Transcoder)
    (hidle : t.active = false) :
    (run t [.callStart, .resumeStart none]).2 =
      [.sessionRequest, .errorOut, .retStart false] ∧
    (run t [.callStart, .resumeStart none]).1.use_count = t.use_count ∧
    (run t [.callStart, .resumeStart none]).1.active = false ∧
    (run t [.callStart, .resumeStart none]).1.process = t.process ∧
    (run t [.callStart, .resumeStart none]).1.procCount = t.procCount ∧
    (run t [.callStart, .resumeStart none]).1.timer = t.timer ∧
    (run t [.callStart, .resumeStart none]).1.pendingStarts = t.pendingStarts ∧
    (run t [.callStart, .resumeStart none]).1.dirExists = t.dirExists := by
  simp [run, step, callStart, resumeStart, hidle]

/-- C6 witness -/
theorem c6_failed_session_stays_idle_witness :
    (run tIdleEx [.callStart, .resumeStart none]).1.use_count = 0 ∧
    (run tIdleEx [.callStart, .resumeStart none]).2 =
      [.sessionRequest, .errorOut, .retStart false] := by
  have h := c6_failed_session_stays_idle tIdleEx rfl
  exact ⟨h.2.1, h.1⟩

/-! ## Claim C7 -/

/-- C7: an exit of the external process while the supervisor is Active
with auto-restart enabled immediately respawns it with exactly the same
argument list (built from the unchanged session playlist URL and output
path), the remote session is kept, and no additional watch-session request
is issued. -/
theorem c7_restart_identical_args (s : PlayerSession) (c : Int)
    (id ch op fn : String) :
    spawnArgsList (run (mkTranscoder id ch op fn true)
      [.callStart, .resumeStart (some s), .pollTick true, .procExit c]).2 =
      [ffmpegArgs s.playlist_url (mkFullPath op id fn),
       ffmpegArgs s.playlist_url (mkFullPath op id fn)] ∧
    (run (mkTranscoder id ch op fn true)
      [.callStart, .resumeStart (some s), .pollTick true, .procExit c]).2 =
      [.sessionRequest, .spawnOut (ffmpegArgs s.playlist_url (mkFullPath op id fn)),
       .retStart true, .ready, .exitOut c,
       .spawnOut (ffmpegArgs s.playlist_url (mkFullPath op id fn))] ∧
    countSessionReq (run (mkTranscoder id ch op fn true)
      [.callStart, .resumeStart (some s), .pollTick true, .procExit c]).2 = 1 ∧
    (run (mkTranscoder id ch op fn true)
      [.callStart, .resumeStart (some s), .pollTick true, .procExit c]).1.session
      = some s ∧
    (run (mkTranscoder id ch op fn true)
      [.callStart, .resumeStart (some s), .pollTick true, .procExit c]).1.procCount
      = 1 := by
  refine ⟨rfl, rfl, rfl, rfl, rfl⟩

/-! ## Claim C8 -/

/-- C8: when `stop()` drops the use count to zero or below on an Active
supervisor owning a process, the teardown runs to completion: the output
directory is removed, exactly one stopped notification is emitted, and the
supervisor leaves the Active state. -/
theorem c8_teardown_removes_dir (t : Transcoder) (hact : t.active = true)
    (hproc : t.process = true) (hcnt : t.use_count ≤ 1) :
    (stop t).1.dirExists = false ∧ (stop t).1.active = false ∧
    countStopped (stop t).2 = 1 := by
  have hstop : stop t = abortSeq { t with use_count := t.use_count - 1 } := by
    simp only [stop]
    rw [if_pos]
    refine ⟨hact, ?_⟩
    show t.use_count - 1 ≤ 0
    omega
  rw [hstop]
  cases hs : t.session <;>
    simp [abortSeq, hproc, hs, countStopped, isStoppedOut]

/-- C8 witness -/
theorem c8_teardown_removes_dir_witness :
    (stop tActiveEx).1.dirExists = false ∧ (stop tActiveEx).1.active = false ∧
    countStopped (stop tActiveEx).2 = 1 := by
  exact c8_teardown_removes_dir tActiveEx (by decide) (by decide) (by decide)

/-! ## Claim C1 -/

theorem run_append (t : Transcoder) (es1 es2 : List Ev) :
    run t (es1 ++ es2) =
      ((run (run t es1).1 es2).1,
       (run t es1).2 ++ (run (run t es1).1 es2).2) := by
  induction es1 generalizing t with
  | nil => simp [run]
  | cons e es ih => simp [run, ih]

/-- C1: n `start()` calls without an intervening `stop()`, the first
obtaining a session and becoming Active once the playlist is observed and
the remaining n-1 joining afterwards, leave use_count = n with exactly one
live process; the outputs are exactly one session request, one spawn, one
ready after the playlist poll, then one immediate ready per joining call,
and no further session request. -/
theorem c1_shared_starts (n : Nat) (hn : 1 ≤ n) (s : PlayerSession)
    (id ch op fn : String) (ar : Bool) :
    (run (mkTranscoder id ch op fn ar)
      ([.callStart, .resumeStart (some s), .pollTick true] ++
        List.replicate (n - 1) .callStart)).1.use_count = (n : Int) ∧
    (run (mkTranscoder id ch op fn ar)
      ([.callStart, .resumeStart (some s), .pollTick true] ++
        List.replicate (n - 1) .callStart)).1.procCount = 1 ∧
    (run (mkTranscoder id ch op fn ar)
      ([.callStart, .resumeStart (some s), .pollTick true] ++
        List.replicate (n - 1) .callStart)).2 =
      [.sessionRequest,
       .spawnOut (ffmpegArgs s.playlist_url (mkFullPath op id fn)),
       .retStart true, .ready] ++ joinOutputs (n - 1) ∧
    countReady (run (mkTranscoder id ch op fn ar)
      ([.callStart, .resumeStart (some s), .pollTick true] ++
        List.replicate (n - 1) .callStart)).2 = n ∧
    countSessionReq (run (mkTranscoder id ch op fn ar)
      ([.callStart, .resumeStart (some s), .pollTick true] ++
        List.replicate (n - 1) .callStart)).2 = 1 ∧
    countSpawn (run (mkTranscoder id ch op fn ar)
      ([.callStart, .resumeStart (some s), .pollTick true] ++
        List.replicate (n - 1) .callStart)).2 = 1 := by
  have hpref : run (mkTranscoder id ch op fn ar)
      [.callStart, .resumeStart (some s), .pollTick true] =
      ({ id := id, channel_id := ch, output_path := op, filename := fn,
         auto_restart := ar, use_count := 1, active := true, process := true,
         procCount := 1, timer := some ((s.keepalive - 30) * 1000),
         session := some s, pendingStarts := 0, polling := 0,
         dirExists := true, full_path := mkFullPath op id fn },
       [.sessionRequest,
        .spawnOut (ffmpegArgs s.playlist_url (mkFullPath op id fn)),
        .retStart true, .ready]) := rfl
  rw [run_append, hpref]
  rw [run_joins (n - 1) _ rfl]
  refine ⟨?_, rfl, rfl, ?_, ?_, ?_⟩
  · show (1 : Int) + ((n - 1 : Nat) : Int) = (n : Int)
    omega
  · show countReady ([Output.sessionRequest,
        Output.spawnOut (ffmpegArgs s.playlist_url (mkFullPath op id fn)),
        Output.retStart true, Output.ready] ++ joinOutputs (n - 1)) = n
    rw [show countReady ([Output.sessionRequest,
        Output.spawnOut (ffmpegArgs s.playlist_url (mkFullPath op id fn)),
        Output.retStart true, Output.ready] ++ joinOutputs (n - 1)) =
        1 + countReady (joinOutputs (n - 1)) from by
      simp [countReady, List.countP_append, List.countP_cons, isReadyOut]
      omega]
    rw [countReady_joinOutputs]
    omega
  · show countSessionReq ([Output.sessionRequest,
        Output.spawnOut (ffmpegArgs s.playlist_url (mkFullPath op id fn)),
        Output.retStart true, Output.ready] ++ joinOutputs (n - 1)) = 1
    rw [show countSessionReq ([Output.sessionRequest,
        Output.spawnOut (ffmpegArgs s.playlist_url (mkFullPath op id fn)),
        Output.retStart true, Output.ready] ++ joinOutputs (n - 1)) =
        1 + countSessionReq (joinOutputs (n - 1)) from by
      simp [countSessionReq, List.countP_append, List.countP_cons,
        isSessionReqOut]
      omega]
    rw [countSessionReq_joinOutputs]
  · show countSpawn ([Output.sessionRequest,
        Output.spawnOut (ffmpegArgs s.playlist_url (mkFullPath op id fn)),
        Output.retStart true, Output.ready] ++ joinOutputs (n - 1)) = 1
    rw [show countSpawn ([Output.sessionRequest,
        Output.spawnOut (ffmpegArgs s.playlist_url (mkFullPath op id fn)),
        Output.retStart true, Output.ready] ++ joinOutputs (n - 1)) =
        1 + countSpawn (joinOutputs (n - 1)) from by
      simp [countSpawn, List.countP_append, List.countP_cons, isSpawnOut]
      omega]
    rw [countSpawn_joinOutputs]

/-- C1 witness -/
theorem c1_shared_starts_witness :
    (run (mkTranscoder "fp" "C1" "/out" "stream.m3u8" true)
      ([.callStart, .resumeStart (some sessEx), .pollTick true] ++
        List.replicate (3 - 1) .callStart)).1.use_count = (3 : Int) ∧
    (run (mkTranscoder "fp" "C1" "/out" "stream.m3u8" true)
      ([.callStart, .resumeStart (some sessEx), .pollTick true] ++
        List.replicate (3 - 1) .callStart)).1.procCount = 1 := by
  have h := c1_shared_starts 3 (by decide) sessEx "fp" "C1" "/out" "stream.m3u8" true
  exact ⟨h.1, h.2.1⟩

/-! ## Claim C2 -/

/-- C2: the registry lookup is idempotent — after a successful call
returning supervisor `t` and registry `reg2`, an identical call on `reg2`
returns the very same supervisor and leaves the registry unchanged, and
the key under which `t` is found is the deterministic fingerprint of the
canonicalized (server_id, channel_id) pair. -/
theorem c2_registry_idempotent (reg : List (String × Transcoder))
    (i : DeviceInfo) (ch op fn : String) (ar : Bool) (t : Transcoder)
    (reg2 : List (String × Transcoder))
    (h : instanceReg reg (some i) ch op fn ar = .ok (t, reg2)) :
    instanceReg reg2 (some i) ch op fn ar = .ok (t, reg2) ∧
    instanceLookup reg2 (fingerprint i.server_id ch) = some t := by
  unfold instanceReg at h ⊢
  cases hl : instanceLookup reg (fingerprint i.server_id ch) with
  | some t0 =>
    simp only [hl] at h
    rw [Except.ok.injEq, Prod.mk.injEq] at h
    obtain ⟨ht, hreg⟩ := h
    subst ht
    subst hreg
    simp [hl]
  | none =>
    simp only [hl] at h
    rw [Except.ok.injEq, Prod.mk.injEq] at h
    obtain ⟨ht, hreg⟩ := h
    subst ht
    subst hreg
    simp [instanceLookup]

/-- C2 witness -/
theorem c2_registry_idempotent_witness :
    instanceReg
      [(fingerprint "D1" "C1",
        mkTranscoder (fingerprint "D1" "C1") "C1" "/out" "stream.m3u8" true)]
      (some { server_id := "D1" }) "C1" "/out" "stream.m3u8" true =
      .ok (mkTranscoder (fingerprint "D1" "C1") "C1" "/out" "stream.m3u8" true,
        [(fingerprint "D1" "C1",
          mkTranscoder (fingerprint "D1" "C1") "C1" "/out" "stream.m3u8" true)]) ∧
    instanceLookup
      [(fingerprint "D1" "C1",
        mkTranscoder (fingerprint "D1" "C1") "C1" "/out" "stream.m3u8" true)]
      (fingerprint "D1" "C1") =
      some (mkTranscoder (fingerprint "D1" "C1") "C1" "/out" "stream.m3u8" true) := by
  exact c2_registry_idempotent [] { server_id := "D1" } "C1" "/out"
    "stream.m3u8" true _ _ rfl

/-- sanity: the embedded canonicalization and SHA-256 agree with the real
digest of the JSON preimage for device "D1", channel "C1" -/
theorem fingerprint_concrete_sanity :
    fingerprint "D1" "C1" =
      "8ee6f895ff46ca640f3c81197ac104d9c366205991d7e405cb03fb3852634d39" := by
  decide

/-! ## Claim C9 -/

/-- sanity: the embedded MD5 agrees with the real digest -/
theorem md5_concrete_sanity :
    md5Hex (utf8Bytes "abc") = "900150983cd24fb0d6963f7d28e17f72" := by
  decide

/-- sanity: the embedded HMAC-MD5 agrees with the RFC 2202 test vector -/
theorem hmac_md5_concrete_sanity :
    hmacMd5Hex (utf8Bytes "key")
      (utf8Bytes "The quick brown fox jumps over the lazy dog") =
      "80070713463e7749b90c2dc24911e275" := by
  decide

/-- C9 (counterexample): for an empty body the generated header differs
from the claim's formula, because the code places the empty string in the
body-hash slot instead of MD5 of the empty body. -/
theorem c9_counterexample :
    generateAuthHeader "GET" "/settings/info" ""
      "Mon, 01 Jan 2024 00:00:00 GMT" "AK" "SK" ≠
    generateAuthHeaderSpec "GET" "/settings/info" ""
      "Mon, 01 Jan 2024 00:00:00 GMT" "AK" "SK" := by
  decide

/-- C9 (amended): for a non-empty body the generated headers are exactly
the claim's formula — Authorization is tablo:{access_key}:{uppercase hex
HMAC_MD5(secret_key, METHOD\nPATH\nMD5(body)\nDATE)} and the Date header
carries the same timestamp string used inside the signed message; for an
empty body the body-hash slot is the empty string rather than MD5("") -/
theorem c9_auth_header (m p b d ak sk : String) (hb : b ≠ "") :
    generateAuthHeader m p b d ak sk = generateAuthHeaderSpec m p b d ak sk ∧
    (generateAuthHeader m p b d ak sk).date = d ∧
    (generateAuthHeader m p b d ak sk).authorization =
      "tablo:" ++ ak ++ ":" ++
        stringToUpper (hmacMd5Hex (utf8Bytes sk)
          (utf8Bytes (m ++ "\n" ++ p ++ "\n" ++ md5Hex (utf8Bytes b) ++
            "\n" ++ d))) := by
  refine ⟨?_, rfl, ?_⟩ <;>
    simp [generateAuthHeader, generateAuthHeaderSpec, authMessage, hb]

/-- C9 witness -/
theorem c9_auth_header_witness :
    generateAuthHeader "POST" "/batch" "[\"/guide/channels\"]"
      "Mon, 01 Jan 2024 00:00:00 GMT" "AK" "SK" =
    generateAuthHeaderSpec "POST" "/batch" "[\"/guide/channels\"]"
      "Mon, 01 Jan 2024 00:00:00 GMT" "AK" "SK" := by
  exact (c9_auth_header "POST" "/batch" "[\"/guide/channels\"]"
    "Mon, 01 Jan 2024 00:00:00 GMT" "AK" "SK" (by decide)).1

/-! ## Claim C10 -/

theorem replaceFirstL_no_occur (pat rep s : List Char)
    (h : ∀ j, isPrefixL pat (s.drop j) = false) :
    replaceFirstL pat rep s = s := by
  induction s with
  | nil =>
    have h0 := h 0
    simp only [List.drop_zero] at h0
    simp [replaceFirstL, h0]
  | cons c cs ih =>
    have h0 := h 0
    simp only [List.drop_zero] at h0
    simp only [replaceFirstL, h0, if_neg, Bool.false_eq_true, ite_false,
      List.cons.injEq, true_and]
    exact ih (fun j => by simpa using h (j + 1))

theorem replaceFirstL_first_occur (pat rep : List Char) (i : Nat) :
    ∀ s : List Char, isPrefixL pat (s.drop i) = true →
      (∀ j, j < i → isPrefixL pat (s.drop j) = false) →
      replaceFirstL pat rep s = s.take i ++ rep ++ s.drop (i + pat.length) := by
  induction i with
  | zero =>
    intro s h1 _
    simp only [List.drop_zero] at h1
    cases s with
    | nil => simp [replaceFirstL, h1]
    | cons c cs => simp [replaceFirstL, h1]
  | succ k ih =>
    intro s h1 h2
    cases s with
    | nil =>
      have h0 := h2 0 (Nat.succ_pos k)
      simp only [List.drop_nil, List.drop_zero] at h0 h1
      rw [h0] at h1
      exact absurd h1 (by simp)
    | cons c cs =>
      have h0 := h2 0 (Nat.succ_pos k)
      simp only [List.drop_zero] at h0
      have hrec := ih cs (by simpa using h1)
        (fun j hj => by simpa using h2 (j + 1) (Nat.succ_lt_succ hj))
      simp only [replaceFirstL, h0, Bool.false_eq_true, ite_false, hrec]
      simp [List.take_succ_cons, Nat.succ_add, List.drop_succ_cons]

theorem noOccurBelow_iff (pat s : List Char) (n : Nat) :
    noOccurBelow pat s n = true ↔
      ∀ j, j < n → isPrefixL pat (s.drop j) = false := by
  induction n with
  | zero => simp [noOccurBelow]
  | succ n ih =>
    simp only [noOccurBelow, Bool.and_eq_true, Bool.not_eq_true', ih]
    constructor
    · rintro ⟨hall, hn⟩ j hj
      rcases Nat.lt_succ_iff_lt_or_eq.mp hj with hlt | heq
      · exact hall j hlt
      · rw [heq]
        exact hn
    · intro h
      exact ⟨fun j hj => h j (Nat.lt_succ_of_lt hj), h n (Nat.lt_succ_self n)⟩

/-- C10: for a non-empty id, `relative_path` returns the concatenation
output_path/id/filename in which only the first occurrence of "//" is
collapsed to "/": with no occurrence the string is returned unchanged, and
with first occurrence at position i the result keeps the first i
characters, writes one "/", and keeps the remainder — including any later
"//" — verbatim. -/
theorem c10_relative_path_first_occurrence (t : Transcoder) (h : t.id ≠ "") :
    ((∀ j, isPrefixL ['/', '/'] ((pathOf t).data.drop j) = false) →
      relative_path t = pathOf t) ∧
    (∀ i, occursAtB ['/', '/'] (pathOf t).data i = true →
      relative_path t =
        ⟨(pathOf t).data.take i ++ '/' :: (pathOf t).data.drop (i + 2)⟩) := by
  have hrp : relative_path t =
      ⟨replaceFirstL ['/', '/'] ['/'] (pathOf t).data⟩ := by
    unfold relative_path
    rw [if_pos h]
    rfl
  constructor
  · intro hno
    rw [hrp, replaceFirstL_no_occur _ _ _ hno]
  · intro i hocc
    simp only [occursAtB, Bool.and_eq_true] at hocc
    obtain ⟨h1, h2⟩ := hocc
    rw [hrp, replaceFirstL_first_occur ['/', '/'] ['/'] i (pathOf t).data h1
      ((noOccurBelow_iff _ _ _).mp h2)]
    simp

/-- C10 witness: an output path that itself contains "//" — only the first
occurrence collapses, the later one survives -/
theorem c10_relative_path_first_occurrence_witness :
    relative_path (mkTranscoder "x" "ch" "a//b//c" "f" true) = "a/b//c/x/f" := by
  have h := (c10_relative_path_first_occurrence
    (mkTranscoder "x" "ch" "a//b//c" "f" true) (by decide)).2 1 (by decide)
  rw [h]
  decide

end TabloTV
